import Mathlib

/-!
Shallow embedding of the session/worker orchestration core of the
5G-ERA Collision Avoidance Service (forward collision warning, FCW).

Two variants of the server interface exist in the repository and are both
embedded here:

* `FcwService` — `fcw-service/fcw_service/interface.py` (class `Server`):
  `heart_beat`, `image_callback`, `command_callback`.
* `FcwWs` — `fcw/service/interface.py` (module-level socketio handlers):
  `heart_beat_timer`, `image_callback_websocket`, `command_callback_websocket`,
  with a module-global `tasks` dict and a module-global `last_timestamp`.

The pipeline worker (`fcw/service/collision_worker.py`, class
`CollisionWorker`) is embedded in namespace `FcwWorker`: the `run` drain
loop, `stop`, and `process_image`.

External collaborators (the era_5g_interface task handler and latency
recorder, the YOLO detector, the SORT tracker, the collision guard and the
camera) are not part of the repository sources; they appear here either as
abstract function parameters or as minimal state records holding exactly
the fields the core reads.
-/

namespace FCW

/-- Python dict assignment `m[k] = v` on an insertion-ordered association
list with unique keys: replace the binding in place if the key is present,
otherwise append the new binding at the end. -/
def dictInsert {α : Type} [DecidableEq α] {β : Type} (k : α) (v : β) :
    List (α × β) → List (α × β)
  | [] => [(k, v)]
  | (k', v') :: rest =>
    if k = k' then (k, v) :: rest else (k', v') :: dictInsert k v rest

/-- Modelled from the spec: the per-worker latency recorder
(`era_5g_interface.interface_helpers.LatencyMeasurements`, external to this
repository) is a bounded rolling record of processing latencies;
`get_latencies` returns the currently recorded samples. -/
structure LatencyMeasurements where
  latencies : List ℚ
deriving DecidableEq, Repr

/-- Registry-level view of one `CollisionWorker` instance: the identity of
the instance, its stop event, its frame counter and its latency recorder. -/
structure WorkerHandle where
  workerId : ℕ
  stopEvent : Bool
  frameId : ℕ
  latency_measurements : LatencyMeasurements
deriving DecidableEq, Repr

/-- A frame plus its metadata as stored into a task handler queue. -/
structure FrameEnvelope where
  timestamp : ℤ
  recv_timestamp : ℤ
  frame : ℕ
deriving DecidableEq, Repr

/-- Modelled from the spec: `era_5g_interface.task_handler_internal_q.
TaskHandlerInternalQ` (external to this repository) wraps a bounded FIFO
queue of received frames, created with capacity `NETAPP_INPUT_QUEUE`. -/
structure TaskHandlerInternalQ where
  capacity : ℕ
  queue : List FrameEnvelope
deriving DecidableEq, Repr

/-- Modelled from the spec: storing a frame into the task handler enqueues
it at the tail of the bounded FIFO queue; a frame arriving at a full queue
is not buffered (fail-fast bounded channel, capacity `capacity`). -/
def TaskHandlerInternalQ.store (t : TaskHandlerInternalQ) (env : FrameEnvelope) :
    TaskHandlerInternalQ :=
  if t.queue.length < t.capacity then { t with queue := t.queue ++ [env] } else t

/-- `TaskAndWorker` dataclass: one registry entry, pairing the task handler
(bounded channel) with the worker that drains it. -/
structure TaskAndWorker where
  task : TaskHandlerInternalQ
  worker : WorkerHandle
deriving DecidableEq, Repr

/-- Control command type tag (`era_5g_interface.dataclasses.control_command.
ControlCmdType`): the `fcw-service` variant initializes on `INIT`, the
websocket variant on `SET_STATE`; any other tag is a non-init command. -/
inductive CmdType
  | INIT
  | SET_STATE
  | other
deriving DecidableEq, Repr

/-- A control command as seen by the command callbacks: only its type tag
matters to the orchestration layer (the configuration payload is passed
through verbatim to worker construction). -/
structure ControlCommand where
  cmd_type : CmdType
deriving DecidableEq, Repr

/-- Error classes of the event emitted back to the originating session by
the image callbacks on a rejected frame. -/
inductive ImageError
  | notConnected
  | noFrame
  | staleFrame
  | decodeFailed
deriving DecidableEq, Repr

/-- An error event addressed to a socket id, as produced by `send_data`
on the data-error event or by `sio.emit("image_error", ...)`. -/
structure ImageErrorEvent where
  error : ImageError
  timestamp : ℤ
  toSid : String
deriving DecidableEq, Repr

/-- Error classes sent through `send_command_error` by the `fcw-service`
command callback. -/
inductive CmdErr
  | alreadyInit
  | constructionFailed
deriving DecidableEq, Repr

/-- The heartbeat report assembled by `send_middleware_heart_beat`. -/
structure HeartBeatReport where
  avg_latency : ℚ
  queue_size : ℕ
  queue_occupancy : ℕ
  current_robot_count : ℕ
deriving DecidableEq, Repr

end FCW

namespace FcwService

open FCW

/-- Server state of the `fcw-service` variant: the `self.tasks` dict of
registered sessions (keyed by engine.io session id). -/
structure ServerState where
  tasks : List (String × TaskAndWorker)
deriving DecidableEq, Repr

/-- `Server.heart_beat` of `fcw-service/fcw_service/interface.py`: extend
an initially empty latency list with every worker's recorded samples, take
the mean (0 when there are no samples), and report it together with the
configured input queue size, the constant occupancy 1, and the number of
registered tasks. -/
def heart_beat (st : ServerState) (NETAPP_INPUT_QUEUE : ℕ) : HeartBeatReport :=
  let latencies :=
    st.tasks.foldl (fun acc tw => acc ++ tw.2.worker.latency_measurements.latencies) []
  let avg_latency : ℚ :=
    if 0 < latencies.length then latencies.sum / latencies.length else 0
  { avg_latency := avg_latency
    queue_size := NETAPP_INPUT_QUEUE
    queue_occupancy := 1
    current_robot_count := st.tasks.length }

/-- `Server.image_callback`: if the engine.io sid is not registered, send a
data-error event back to the originating sid and change nothing; otherwise
store (timestamp, receive timestamp, frame) into that session's task
handler queue. No staleness check is performed. -/
def image_callback (st : ServerState) (eio_sid sid : String)
    (timestamp recv_timestamp : ℤ) (frame : ℕ) :
    ServerState × Option ImageErrorEvent :=
  match st.tasks.lookup eio_sid with
  | none => (st, some ⟨ImageError.notConnected, timestamp, sid⟩)
  | some tw =>
    let tw' := { tw with task := tw.task.store ⟨timestamp, recv_timestamp, frame⟩ }
    ({ st with tasks := dictInsert eio_sid tw' st.tasks }, none)

/-- `Server.command_callback`: on an `INIT` command, reject if the session
id is already registered (command error, state unchanged); reject if worker
construction fails (command error, state unchanged); otherwise create the
task handler and worker, commit them to `self.tasks`, start the worker and
wait up to 5 seconds for it to report alive — on timeout return failure
(without sending a command error and without removing the committed
entry). Non-`INIT` commands fall through and return success untouched.
The environment is abstracted by `newWorkerId` (identity of the freshly
constructed worker), `constructionOk` (worker construction does not raise)
and `aliveInTime` (the worker reports alive within the startup window). -/
def command_callback (st : ServerState) (eio_sid sid : String)
    (command : ControlCommand) (newWorkerId : ℕ)
    (constructionOk aliveInTime : Bool) (NETAPP_INPUT_QUEUE : ℕ) :
    ServerState × Bool × Option (CmdErr × String) :=
  if command.cmd_type = CmdType.INIT then
    if (st.tasks.lookup eio_sid).isSome then
      (st, false, some (CmdErr.alreadyInit, sid))
    else if constructionOk = false then
      (st, false, some (CmdErr.constructionFailed, sid))
    else
      let task : TaskHandlerInternalQ := ⟨NETAPP_INPUT_QUEUE, []⟩
      let worker : WorkerHandle := ⟨newWorkerId, false, 0, ⟨[]⟩⟩
      let st' : ServerState := ⟨dictInsert eio_sid ⟨task, worker⟩ st.tasks⟩
      if aliveInTime then (st', true, none) else (st', false, none)
  else
    (st, true, none)

end FcwService

namespace FcwWs

open FCW

/-- Server state of the websocket variant: the module-global `tasks` dict
together with the module-global `last_timestamp` shared by every session. -/
structure WsState where
  tasks : List (String × TaskAndWorker)
  last_timestamp : ℤ
deriving DecidableEq, Repr

/-- The incoming `data` dict of the websocket image event: an optional
timestamp field and an optional frame payload. -/
structure WsFrameMsg where
  timestampField : Option ℤ
  hasFrame : Bool
  frame : ℕ
deriving DecidableEq, Repr

/-- `heart_beat_timer` of `fcw/service/interface.py`: same latency
aggregation as the `fcw-service` variant, but both the queue size and the
queue occupancy are reported as the literal constant 1. -/
def heart_beat_timer (st : WsState) : HeartBeatReport :=
  let latencies :=
    st.tasks.foldl (fun acc tw => acc ++ tw.2.worker.latency_measurements.latencies) []
  let avg_latency : ℚ :=
    if 0 < latencies.length then latencies.sum / latencies.length else 0
  { avg_latency := avg_latency
    queue_size := 1
    queue_occupancy := 1
    current_robot_count := st.tasks.length }

/-- `image_callback_websocket`: take the timestamp field (default 0);
reject unknown sessions ("Not connected"); reject messages without a frame
field; reject frames whose timestamp is strictly older than the single
module-global `last_timestamp` (shared by all sessions) with an
"older timestamp" image error, enqueueing nothing; otherwise update the
global `last_timestamp`, decode (a decode failure is an image error, after
the global timestamp was already advanced), and store the decoded frame
into the session's task handler queue. `decodeOk` abstracts the external
decoder. -/
def image_callback_websocket (st : WsState) (eio_sid sid : String)
    (data : WsFrameMsg) (recv_timestamp : ℤ) (decodeOk : Bool) :
    WsState × Option ImageErrorEvent :=
  let timestamp := data.timestampField.getD 0
  match st.tasks.lookup eio_sid with
  | none => (st, some ⟨ImageError.notConnected, timestamp, sid⟩)
  | some tw =>
    if data.hasFrame = false then
      (st, some ⟨ImageError.noFrame, timestamp, sid⟩)
    else if timestamp - st.last_timestamp < 0 then
      (st, some ⟨ImageError.staleFrame, timestamp, sid⟩)
    else
      let st1 : WsState := { st with last_timestamp := timestamp }
      if decodeOk = false then
        (st1, some ⟨ImageError.decodeFailed, timestamp, sid⟩)
      else
        let tw' := { tw with task := tw.task.store ⟨timestamp, recv_timestamp, data.frame⟩ }
        ({ st1 with tasks := dictInsert eio_sid tw' st1.tasks }, none)

/-- `command_callback_websocket`: on a `SET_STATE` command, unconditionally
create a fresh bounded queue, task handler and worker, assign them into the
global `tasks` dict (overwriting any existing entry for that session id),
start the worker and wait up to 5 seconds for liveness — on timeout raise
`ConnectionRefusedError` (modelled as `Except.error`), leaving the
committed entry in place. There is no already-registered check and no
construction try/except in this variant. Non-`SET_STATE` commands fall
through untouched. -/
def command_callback_websocket (st : WsState) (eio_sid : String)
    (command : ControlCommand) (newWorkerId : ℕ) (aliveInTime : Bool)
    (NETAPP_INPUT_QUEUE : ℕ) : WsState × Except String Unit :=
  if command.cmd_type = CmdType.SET_STATE then
    let task : TaskHandlerInternalQ := ⟨NETAPP_INPUT_QUEUE, []⟩
    let worker : WorkerHandle := ⟨newWorkerId, false, 0, ⟨[]⟩⟩
    let st' : WsState := { st with tasks := dictInsert eio_sid ⟨task, worker⟩ st.tasks }
    if aliveInTime then (st', Except.ok ()) else (st', Except.error "Timed out to start worker.")
  else
    (st, Except.ok ())

end FcwWs

namespace FcwWorker

open FCW

/-- One external tracker instance (`fcw.core.sort.Sort`, out of scope of
this repository): the fields the worker reads are the tracker list and the
`min_hits` confirmation threshold. -/
structure KalmanBoxTracker where
  id : ℕ
  hit_streak : ℕ
  time_since_update : ℕ
deriving DecidableEq, Repr

/-- State of the SORT multi-object tracker as read by the worker. -/
structure SortState where
  trackers : List KalmanBoxTracker
  min_hits : ℕ
deriving DecidableEq, Repr

/-- Opaque state of the external `ForwardCollisionGuard`. -/
structure GuardState where
  val : ℕ
deriving DecidableEq, Repr

/-- The external collaborators that `CollisionWorker.process_image` calls
into: the YOLO detector, the tracker update, the camera projection to 3D
reference points, and the guard update. Detections, images and reference
points are opaque. -/
structure PipelineCtx where
  detect : ℕ → List ℕ
  trackerUpdate : SortState → List ℕ → SortState
  getReferencePoints : List (ℕ × KalmanBoxTracker) → List ℕ
  guardUpdate : GuardState → List ℕ → GuardState

/-- The Python dict comprehension `{t.id: t for t in l if p t}`:
insertion-ordered dict built left to right (a later duplicate id replaces
the earlier binding in place). -/
def dictOfFiltered (p : KalmanBoxTracker → Bool) (l : List KalmanBoxTracker) :
    List (ℕ × KalmanBoxTracker) :=
  (l.filter p).foldl (fun acc t => dictInsert t.id t acc) []

/-- Result of one `process_image` call: the updated tracker and guard
state, the reported tracked objects and the reference points fed to the
guard. -/
structure ProcessResult where
  tracker : SortState
  guard : GuardState
  tracked_objects : List (ℕ × KalmanBoxTracker)
  ref_points : List ℕ
deriving Repr

/-- The filter applied to trackers after the update: confirmed
(`hit_streak > min_hits`) and currently visible (`time_since_update < 1`). -/
def confirmedVisible (min_hits : ℕ) (t : KalmanBoxTracker) : Bool :=
  decide (min_hits < t.hit_streak) && decide (t.time_since_update < 1)

/-- `CollisionWorker.process_image`: detect objects, update the tracker,
keep exactly the trackers with `hit_streak > self.tracker.min_hits` and
`time_since_update < 1` as a dict keyed by tracker id, project them to
reference points, feed those into the guard, and return the tracked
objects. -/
def process_image (ctx : PipelineCtx) (tracker : SortState) (guard : GuardState)
    (image : ℕ) : ProcessResult :=
  let detections := ctx.detect image
  let tracker' := ctx.trackerUpdate tracker detections
  let tracked_objects := dictOfFiltered (confirmedVisible tracker'.min_hits) tracker'.trackers
  let ref_points := ctx.getReferencePoints tracked_objects
  let guard' := ctx.guardUpdate guard ref_points
  ⟨tracker', guard', tracked_objects, ref_points⟩

/-- Worker state threaded through the run loop: the stop event and the
frame counter (the pipeline state is abstracted away for the loop-level
claims; results are opaque). -/
structure WorkerState where
  stopEvent : Bool
  frameId : ℕ
deriving DecidableEq, Repr

/-- `CollisionWorker.stop`: set the stop event. -/
def stop (w : WorkerState) : WorkerState := { w with stopEvent := true }

/-- What one poll cycle of the drain loop observes from the queue: either
the 1-second dequeue timeout fired (`Empty` exception — not an error, loop
continues), or a frame was dequeued and its processing/publishing either
returned a result or raised an exception. -/
inductive IterEvent
  | timeout
  | frameOk (result : ℕ)
  | frameRaises
deriving DecidableEq, Repr

/-- One iteration of the `run` loop body after the stop check: a timeout
just continues; a dequeued frame increments `frame_id`, and either its
result is published (`some result`) or the exception from processing or
publishing is caught and logged and nothing is emitted. -/
def runIter (w : WorkerState) : IterEvent → WorkerState × Option ℕ
  | IterEvent.timeout => (w, none)
  | IterEvent.frameOk r => ({ w with frameId := w.frameId + 1 }, some r)
  | IterEvent.frameRaises => ({ w with frameId := w.frameId + 1 }, none)

/-- The `run` drain loop over a finite schedule. Each schedule entry is a
pair `(stopCalled, ev)`: `stopCalled` records whether the external `stop()`
call happened before this cycle's `stop_event.is_set()` check, and `ev` is
what the queue delivers in this cycle. The loop exits at the first check
that observes the stop event; otherwise it runs one iteration and
continues. The returned list is the sequence of published results. -/
def runLoop (w : WorkerState) : List (Bool × IterEvent) → WorkerState × List ℕ
  | [] => (w, [])
  | (stopCalled, ev) :: rest =>
    let w0 := if stopCalled then stop w else w
    if w0.stopEvent then (w0, [])
    else
      let (w1, out) := runIter w0 ev
      let (w2, outs) := runLoop w1 rest
      (w2, out.toList ++ outs)

end FcwWorker

/-- The spec's heartbeat latency figure, stated from the spec's words for
comparison with both heartbeat implementations: the arithmetic mean of the
concatenation of all workers' recorded latency samples, and 0 when no
samples exist. -/
def specMeanLatency (tasks : List (String × FCW.TaskAndWorker)) : ℚ :=
  let samples := (tasks.map (fun tw => tw.2.worker.latency_measurements.latencies)).flatten
  if samples = [] then 0 else samples.sum / samples.length

/-- The results a schedule of queue deliveries should publish: one per
frame whose processing and publishing succeed, in order. -/
def okResults (sched : List (Bool × FcwWorker.IterEvent)) : List ℕ :=
  sched.filterMap fun p =>
    match p.2 with
    | FcwWorker.IterEvent.frameOk r => some r
    | _ => none

/-- The number of schedule entries that actually deliver a frame (whether
its processing succeeds or raises). -/
def dequeuedFrames (sched : List (Bool × FcwWorker.IterEvent)) : ℕ :=
  sched.countP fun p =>
    match p.2 with
    | FcwWorker.IterEvent.timeout => false
    | _ => true

/-- Two registered sessions A and B with empty channels of capacity 2 and
module-global last timestamp 0, used to exercise the websocket stale
check across sessions. -/
def twoSessionWsState : FcwWs.WsState :=
  ⟨[("A", ⟨⟨2, []⟩, ⟨0, false, 0, ⟨[]⟩⟩⟩), ("B", ⟨⟨2, []⟩, ⟨1, false, 0, ⟨[]⟩⟩⟩)], 0⟩

/-- The server state after session A's frame with timestamp 100 was
accepted by the websocket image callback. -/
def afterSessionAFrame : FcwWs.WsState :=
  (FcwWs.image_callback_websocket twoSessionWsState "A" "sidA" ⟨some 100, true, 11⟩ 50 true).1

/-- Concrete pipeline collaborators used to exercise the tracked-object
filter: the tracker update returns three trackers with distinct ids, of
which only the first is both confirmed and currently visible. -/
def witnessCtx : FcwWorker.PipelineCtx :=
  ⟨fun _ => [],
   fun _ _ => ⟨[⟨1, 5, 0⟩, ⟨2, 1, 0⟩, ⟨3, 5, 3⟩], 3⟩,
   fun l => l.map Prod.fst,
   fun g r => ⟨g.val + r.length⟩⟩

/-- Left fold of list extensions equals appending the flattened map — the
accumulator pattern of the heartbeat latency loop. -/
theorem foldl_append_eq_flatten {α β : Type} (f : α → List β) (l : List α) :
    ∀ acc : List β, l.foldl (fun a x => a ++ f x) acc = acc ++ (l.map f).flatten := by
  induction l with
  | nil => intro acc; simp
  | cons x xs ih => intro acc; simp [ih, List.append_assoc]

/-- Guarding the mean by a positive length is the same as guarding by
non-emptiness. -/
theorem if_length_mean (L : List ℚ) :
    (if 0 < L.length then L.sum / L.length else 0)
      = (if L = [] then 0 else L.sum / L.length) := by
  cases L <;> simp

/-- Both heartbeat implementations compute the spec's mean latency. -/
theorem heart_beat_avg_eq (st : FcwService.ServerState) (qcap : ℕ) :
    (FcwService.heart_beat st qcap).avg_latency = specMeanLatency st.tasks := by
  simp only [FcwService.heart_beat, specMeanLatency, foldl_append_eq_flatten,
    List.nil_append]
  exact if_length_mean _

/-- The websocket heartbeat computes the spec's mean latency as well. -/
theorem heart_beat_timer_avg_eq (ws : FcwWs.WsState) :
    (FcwWs.heart_beat_timer ws).avg_latency = specMeanLatency ws.tasks := by
  simp only [FcwWs.heart_beat_timer, specMeanLatency, foldl_append_eq_flatten,
    List.nil_append]
  exact if_length_mean _

/-- C9: `CollisionWorker.stop` is idempotent — iterating it any positive
number of times yields the same worker state as calling it exactly once —
and after any such call the stop event is set, so the run loop exits at
its next poll-cycle check without processing or emitting anything. -/
theorem stop_idempotent_and_loop_exits
    (w : FcwWorker.WorkerState) (n : ℕ) (b : Bool) (ev : FcwWorker.IterEvent)
    (rest : List (Bool × FcwWorker.IterEvent)) :
    FcwWorker.stop^[n + 1] w = FcwWorker.stop w ∧
    (FcwWorker.stop w).stopEvent = true ∧
    FcwWorker.runLoop (FcwWorker.stop w) ((b, ev) :: rest)
      = (FcwWorker.stop w, []) := by
  refine ⟨?_, rfl, ?_⟩
  · induction n with
    | zero => rfl
    | succ m ih =>
      rw [Function.iterate_succ_apply', ih]
      rfl
  · cases b <;> rfl

/-- C10 counterexample: with the input-queue capacity configured to 2, the
websocket variant's heartbeat still reports queue size 1, so its queue-size
field does not equal the configured capacity constant. -/
theorem ws_heart_beat_queue_size_counterexample :
    ((FcwWs.command_callback_websocket ⟨[], 0⟩ "s" ⟨FCW.CmdType.SET_STATE⟩ 0 true 2).1.tasks.lookup "s")
      = some ⟨⟨2, []⟩, ⟨0, false, 0, ⟨[]⟩⟩⟩ ∧
    (FcwWs.heart_beat_timer
        (FcwWs.command_callback_websocket ⟨[], 0⟩ "s" ⟨FCW.CmdType.SET_STATE⟩ 0 true 2).1).queue_size = 1 ∧
    (1 : ℕ) ≠ 2 :=
  ⟨rfl, rfl, by decide⟩

/-- C10 amended: every heartbeat report carries queue-occupancy equal to
the constant 1 regardless of actual channel contents; the `fcw-service`
variant reports queue size equal to the configured input-queue capacity
constant, while the websocket variant reports the literal constant 1. -/
theorem heart_beat_queue_fields_constant
    (st : FcwService.ServerState) (qcap : ℕ) (ws : FcwWs.WsState) :
    (FcwService.heart_beat st qcap).queue_size = qcap ∧
    (FcwService.heart_beat st qcap).queue_occupancy = 1 ∧
    (FcwWs.heart_beat_timer ws).queue_size = 1 ∧
    (FcwWs.heart_beat_timer ws).queue_occupancy = 1 :=
  ⟨rfl, rfl, rfl, rfl⟩

/-- C5 counterexample: a command whose type is not the initialization type
is not answered with an error response — the `fcw-service` handler returns
success `true` with no command-error event, and the websocket handler
returns without raising, both leaving the state unchanged. -/
theorem non_init_command_returns_success :
    FcwService.command_callback ⟨[]⟩ "s" "sid" ⟨FCW.CmdType.other⟩ 0 true true 1
      = (⟨[]⟩, true, none) ∧
    FcwWs.command_callback_websocket ⟨[], 0⟩ "s" ⟨FCW.CmdType.other⟩ 0 true 1
      = (⟨[], 0⟩, Except.ok ()) :=
  ⟨rfl, rfl⟩

/-- C5 amended: for every command whose type is not the initialization
type, the handlers mutate no server state — registry, channels and workers
are identical before and after the call — but they produce a success
acknowledgment rather than an error response. -/
theorem non_init_command_no_mutation_no_error
    (st : FcwService.ServerState) (ws : FcwWs.WsState) (eio sid eio2 : String)
    (c1 c2 : FCW.ControlCommand) (wid : ℕ) (cok alive : Bool) (qcap : ℕ)
    (wid2 : ℕ) (alive2 : Bool) (qcap2 : ℕ)
    (h1 : c1.cmd_type ≠ FCW.CmdType.INIT) (h2 : c2.cmd_type ≠ FCW.CmdType.SET_STATE) :
    FcwService.command_callback st eio sid c1 wid cok alive qcap = (st, true, none) ∧
    FcwWs.command_callback_websocket ws eio2 c2 wid2 alive2 qcap2 = (ws, Except.ok ()) := by
  constructor
  · simp [FcwService.command_callback, h1]
  · simp [FcwWs.command_callback_websocket, h2]

/-- C5 amended, witness at a concrete non-init command. -/
theorem non_init_command_no_mutation_no_error_witness :
    (FCW.ControlCommand.mk FCW.CmdType.other).cmd_type ≠ FCW.CmdType.INIT ∧
    (FCW.ControlCommand.mk FCW.CmdType.other).cmd_type ≠ FCW.CmdType.SET_STATE ∧
    (FcwService.command_callback ⟨[]⟩ "x" "sidX" ⟨FCW.CmdType.other⟩ 3 true true 2
        = (⟨[]⟩, true, none) ∧
     FcwWs.command_callback_websocket ⟨[], 5⟩ "x" ⟨FCW.CmdType.other⟩ 3 true 2
        = (⟨[], 5⟩, Except.ok ())) :=
  ⟨by decide, by decide,
   non_init_command_no_mutation_no_error ⟨[]⟩ ⟨[], 5⟩ "x" "sidX" "x"
     ⟨FCW.CmdType.other⟩ ⟨FCW.CmdType.other⟩ 3 true true 2 3 true 2
     (by decide) (by decide)⟩

/-- C4: a frame delivered for a session id absent from the registry yields
an explicit error event addressed back to the originating sid, nothing is
enqueued into any channel, and the server state is returned unchanged — in
both interface variants. -/
theorem unknown_session_frame_rejected_no_mutation
    (st : FcwService.ServerState) (ws : FcwWs.WsState) (eio sid eio2 sid2 : String)
    (ts recv : ℤ) (fr : ℕ) (msg : FcwWs.WsFrameMsg) (recv2 : ℤ) (dOk : Bool)
    (h1 : st.tasks.lookup eio = none) (h2 : ws.tasks.lookup eio2 = none) :
    FcwService.image_callback st eio sid ts recv fr
      = (st, some ⟨FCW.ImageError.notConnected, ts, sid⟩) ∧
    FcwWs.image_callback_websocket ws eio2 sid2 msg recv2 dOk
      = (ws, some ⟨FCW.ImageError.notConnected, msg.timestampField.getD 0, sid2⟩) := by
  constructor
  · simp [FcwService.image_callback, h1]
  · simp [FcwWs.image_callback_websocket, h2]

/-- C4, witness at a concrete unregistered session id. -/
theorem unknown_session_frame_rejected_no_mutation_witness :
    (FcwService.ServerState.mk []).tasks.lookup "u" = none ∧
    (FcwWs.WsState.mk [] 0).tasks.lookup "u" = none ∧
    (FcwService.image_callback ⟨[]⟩ "u" "sidU" 5 6 7
        = (⟨[]⟩, some ⟨FCW.ImageError.notConnected, 5, "sidU"⟩) ∧
     FcwWs.image_callback_websocket ⟨[], 0⟩ "u" "sidU" ⟨some 8, true, 9⟩ 6 true
        = (⟨[], 0⟩, some ⟨FCW.ImageError.notConnected, 8, "sidU"⟩)) :=
  ⟨rfl, rfl,
   unknown_session_frame_rejected_no_mutation ⟨[]⟩ ⟨[], 0⟩ "u" "sidU" "u" "sidU"
     5 6 7 ⟨some 8, true, 9⟩ 6 true rfl rfl⟩

/-- C1 counterexample: in the websocket variant a second initialization
command for a session id already present in the registry does not fail —
it succeeds and replaces the registry entry: the worker identity changes
from 0 to 1 and the original channel (holding one queued frame) is
replaced by a fresh empty queue. -/
theorem ws_duplicate_init_overwrites_entry :
    (FcwWs.command_callback_websocket
        ⟨[("s", ⟨⟨1, [⟨100, 100, 9⟩]⟩, ⟨0, false, 0, ⟨[]⟩⟩⟩)], 0⟩
        "s" ⟨FCW.CmdType.SET_STATE⟩ 1 true 1).2 = Except.ok () ∧
    (FcwWs.command_callback_websocket
        ⟨[("s", ⟨⟨1, [⟨100, 100, 9⟩]⟩, ⟨0, false, 0, ⟨[]⟩⟩⟩)], 0⟩
        "s" ⟨FCW.CmdType.SET_STATE⟩ 1 true 1).1.tasks
      = [("s", ⟨⟨1, []⟩, ⟨1, false, 0, ⟨[]⟩⟩⟩)] :=
  ⟨rfl, rfl⟩

/-- C1 amended: in the `fcw-service` variant, a second initialization
command for a session id already present in the registry fails with the
already-initialized command error addressed to the caller, returns
`false`, and leaves the server state exactly as it was — no new channel or
worker is constructed; the websocket variant performs no duplicate check
and instead overwrites the entry with a freshly constructed task and
worker. -/
theorem server_duplicate_init_rejected
    (st : FcwService.ServerState) (eio sid : String) (cmd : FCW.ControlCommand)
    (wid : ℕ) (cok alive : Bool) (qcap : ℕ)
    (hdup : (st.tasks.lookup eio).isSome = true)
    (hinit : cmd.cmd_type = FCW.CmdType.INIT) :
    FcwService.command_callback st eio sid cmd wid cok alive qcap
      = (st, false, some (FCW.CmdErr.alreadyInit, sid)) := by
  simp [FcwService.command_callback, hinit, hdup]

/-- C1 amended, witness at a concrete already-registered session id. -/
theorem server_duplicate_init_rejected_witness :
    ((FcwService.ServerState.mk [("s", ⟨⟨1, []⟩, ⟨0, false, 0, ⟨[]⟩⟩⟩)]).tasks.lookup "s").isSome = true ∧
    (FCW.ControlCommand.mk FCW.CmdType.INIT).cmd_type = FCW.CmdType.INIT ∧
    FcwService.command_callback ⟨[("s", ⟨⟨1, []⟩, ⟨0, false, 0, ⟨[]⟩⟩⟩)]⟩ "s" "sid"
        ⟨FCW.CmdType.INIT⟩ 1 true true 1
      = (⟨[("s", ⟨⟨1, []⟩, ⟨0, false, 0, ⟨[]⟩⟩⟩)]⟩, false, some (FCW.CmdErr.alreadyInit, "sid")) :=
  ⟨rfl, rfl,
   server_duplicate_init_rejected ⟨[("s", ⟨⟨1, []⟩, ⟨0, false, 0, ⟨[]⟩⟩⟩)]⟩ "s" "sid"
     ⟨FCW.CmdType.INIT⟩ 1 true true 1 rfl rfl⟩

/-- C2: at the failing input — fresh session id, initialization command,
worker that never reports alive within the 5-second startup window — both
variants return failure, yet the just-committed session entry is left in
the registry: the pending session is committed before the startup wait and
is not rolled back on timeout, contrary to the claim. -/
theorem startup_timeout_leaves_entry_committed :
    (FcwService.command_callback ⟨[]⟩ "s" "sid" ⟨FCW.CmdType.INIT⟩ 7 true false 1).2.1 = false ∧
    ((FcwService.command_callback ⟨[]⟩ "s" "sid" ⟨FCW.CmdType.INIT⟩ 7 true false 1).1.tasks.lookup "s").isSome = true ∧
    (FcwWs.command_callback_websocket ⟨[], 0⟩ "s" ⟨FCW.CmdType.SET_STATE⟩ 7 false 1).2
      = Except.error "Timed out to start worker." ∧
    ((FcwWs.command_callback_websocket ⟨[], 0⟩ "s" ⟨FCW.CmdType.SET_STATE⟩ 7 false 1).1.tasks.lookup "s").isSome = true :=
  ⟨rfl, rfl, rfl, rfl⟩

/-- C3 counterexample: session A's accepted frame (timestamp 100) makes the
websocket variant reject session B's very first frame (timestamp 90) as
stale, although B never accepted any frame — the stale decision of one
session is affected by another session's acceptance; and in the
`fcw-service` variant a frame with timestamp 90 arriving after an accepted
frame with timestamp 100 for the same session is not rejected at all: it
is enqueued behind it. -/
theorem stale_check_is_global_counterexample :
    (FcwWs.image_callback_websocket twoSessionWsState "A" "sidA" ⟨some 100, true, 11⟩ 50 true).2 = none ∧
    afterSessionAFrame.tasks.lookup "B" = some ⟨⟨2, []⟩, ⟨1, false, 0, ⟨[]⟩⟩⟩ ∧
    FcwWs.image_callback_websocket afterSessionAFrame "B" "sidB" ⟨some 90, true, 12⟩ 60 true
      = (afterSessionAFrame, some ⟨FCW.ImageError.staleFrame, 90, "sidB"⟩) ∧
    (FcwService.image_callback
        (FcwService.image_callback ⟨[("s", ⟨⟨2, []⟩, ⟨3, false, 0, ⟨[]⟩⟩⟩)]⟩ "s" "sid" 100 50 11).1
        "s" "sid" 90 60 12).2 = none ∧
    ((FcwService.image_callback
        (FcwService.image_callback ⟨[("s", ⟨⟨2, []⟩, ⟨3, false, 0, ⟨[]⟩⟩⟩)]⟩ "s" "sid" 100 50 11).1
        "s" "sid" 90 60 12).1.tasks.lookup "s")
      = some ⟨⟨2, [⟨100, 50, 11⟩, ⟨90, 60, 12⟩]⟩, ⟨3, false, 0, ⟨[]⟩⟩⟩ :=
  ⟨rfl, rfl, rfl, rfl, rfl⟩

/-- C3 amended: the stale-frame check exists only in the websocket variant
and compares against a single module-global last-accepted timestamp shared
by all sessions: any frame for a registered session carrying a timestamp
strictly smaller than that global value is rejected with a stale-frame
error addressed to the sender and nothing is enqueued (the state is
unchanged); the `fcw-service` variant performs no stale-frame check and
accepts frames for registered sessions regardless of timestamp order. -/
theorem stale_frame_check_global
    (ws : FcwWs.WsState) (eio sid : String) (msg : FcwWs.WsFrameMsg) (recv : ℤ)
    (dOk : Bool) (tw : FCW.TaskAndWorker) (st : FcwService.ServerState)
    (eio2 sid2 : String) (ts2 recv2 : ℤ) (fr2 : ℕ) (tw2 : FCW.TaskAndWorker)
    (hws : ws.tasks.lookup eio = some tw) (hframe : msg.hasFrame = true)
    (hstale : msg.timestampField.getD 0 - ws.last_timestamp < 0)
    (hsrv : st.tasks.lookup eio2 = some tw2) :
    FcwWs.image_callback_websocket ws eio sid msg recv dOk
      = (ws, some ⟨FCW.ImageError.staleFrame, msg.timestampField.getD 0, sid⟩) ∧
    (FcwService.image_callback st eio2 sid2 ts2 recv2 fr2).2 = none := by
  constructor
  · simp [FcwWs.image_callback_websocket, hws, hframe, hstale]
  · simp [FcwService.image_callback, hsrv]

/-- C3 amended, witness: session B's timestamp-90 frame against global
last timestamp 100 is rejected with nothing enqueued, while the
`fcw-service` variant accepts an out-of-order frame. -/
theorem stale_frame_check_global_witness :
    afterSessionAFrame.tasks.lookup "B" = some ⟨⟨2, []⟩, ⟨1, false, 0, ⟨[]⟩⟩⟩ ∧
    (FcwWs.WsFrameMsg.mk (some 90) true 12).hasFrame = true ∧
    (FcwWs.WsFrameMsg.mk (some 90) true 12).timestampField.getD 0 - afterSessionAFrame.last_timestamp < 0 ∧
    (FcwService.ServerState.mk [("s", ⟨⟨2, []⟩, ⟨3, false, 0, ⟨[]⟩⟩⟩)]).tasks.lookup "s"
      = some ⟨⟨2, []⟩, ⟨3, false, 0, ⟨[]⟩⟩⟩ ∧
    (FcwWs.image_callback_websocket afterSessionAFrame "B" "sidB" ⟨some 90, true, 12⟩ 60 true
        = (afterSessionAFrame, some ⟨FCW.ImageError.staleFrame, 90, "sidB"⟩) ∧
     (FcwService.image_callback ⟨[("s", ⟨⟨2, []⟩, ⟨3, false, 0, ⟨[]⟩⟩⟩)]⟩ "s" "sid" 90 60 12).2 = none) :=
  ⟨rfl, rfl, by decide, rfl,
   stale_frame_check_global afterSessionAFrame "B" "sidB" ⟨some 90, true, 12⟩ 60 true
     ⟨⟨2, []⟩, ⟨1, false, 0, ⟨[]⟩⟩⟩ ⟨[("s", ⟨⟨2, []⟩, ⟨3, false, 0, ⟨[]⟩⟩⟩)]⟩ "s" "sid" 90 60 12
     ⟨⟨2, []⟩, ⟨3, false, 0, ⟨[]⟩⟩⟩ rfl rfl (by decide) rfl⟩

/-- C6: each heartbeat tick (in both variants) reports a session count
equal to the number of registry entries and an average latency equal to
the arithmetic mean of the concatenation of all workers' recorded latency
samples, 0 when no samples exist; concretely, with zero sessions it
reports latency 0 and count 0, and with sessions S1 ↦ [10, 20] and
S2 ↦ [30] it reports mean latency 20 and count 2. -/
theorem heart_beat_reports_mean_latency_and_count :
    (∀ (st : FcwService.ServerState) (qcap : ℕ),
      (FcwService.heart_beat st qcap).current_robot_count = st.tasks.length ∧
      (FcwService.heart_beat st qcap).avg_latency = specMeanLatency st.tasks) ∧
    (∀ ws : FcwWs.WsState,
      (FcwWs.heart_beat_timer ws).current_robot_count = ws.tasks.length ∧
      (FcwWs.heart_beat_timer ws).avg_latency = specMeanLatency ws.tasks) ∧
    (FcwService.heart_beat ⟨[]⟩ 1).avg_latency = 0 ∧
    (FcwService.heart_beat ⟨[]⟩ 1).current_robot_count = 0 ∧
    (FcwService.heart_beat
        ⟨[("S1", ⟨⟨1, []⟩, ⟨0, false, 0, ⟨[10, 20]⟩⟩⟩),
          ("S2", ⟨⟨1, []⟩, ⟨1, false, 0, ⟨[30]⟩⟩⟩)]⟩ 1).avg_latency = 20 ∧
    (FcwService.heart_beat
        ⟨[("S1", ⟨⟨1, []⟩, ⟨0, false, 0, ⟨[10, 20]⟩⟩⟩),
          ("S2", ⟨⟨1, []⟩, ⟨1, false, 0, ⟨[30]⟩⟩⟩)]⟩ 1).current_robot_count = 2 := by
  refine ⟨fun st qcap => ⟨rfl, heart_beat_avg_eq st qcap⟩,
          fun ws => ⟨rfl, heart_beat_timer_avg_eq ws⟩, rfl, rfl, ?_, rfl⟩
  show (if (0 : ℕ) < 3 then ((10 : ℚ) + (20 + (30 + 0))) / (3 : ℕ) else 0) = 20
  norm_num

/-- Inserting a key that is not already bound appends the binding. -/
theorem dictInsert_of_not_mem {α β : Type} [DecidableEq α] (k : α) (v : β)
    (m : List (α × β)) (h : k ∉ m.map Prod.fst) :
    FCW.dictInsert k v m = m ++ [(k, v)] := by
  induction m with
  | nil => rfl
  | cons q rest ih =>
    obtain ⟨k', v'⟩ := q
    simp only [List.map_cons, List.mem_cons] at h
    push_neg at h
    simp [FCW.dictInsert, h.1, ih h.2]

/-- Folding dict insertion of trackers with pairwise distinct ids over an
accumulator free of those ids appends the bindings in order. -/
theorem foldl_dictInsert_eq_append (xs : List FcwWorker.KalmanBoxTracker) :
    ∀ acc : List (ℕ × FcwWorker.KalmanBoxTracker),
    (xs.map FcwWorker.KalmanBoxTracker.id).Nodup →
    (∀ t ∈ xs, t.id ∉ acc.map Prod.fst) →
    xs.foldl (fun a t => FCW.dictInsert t.id t a) acc
      = acc ++ xs.map (fun t => (t.id, t)) := by
  induction xs with
  | nil => intro acc _ _; simp
  | cons x rest ih =>
    intro acc hnd hdis
    simp only [List.map_cons, List.nodup_cons] at hnd
    simp only [List.foldl_cons]
    rw [dictInsert_of_not_mem x.id x acc (hdis x (List.mem_cons_self _ _))]
    rw [ih (acc ++ [(x.id, x)]) hnd.2 ?_]
    · simp
    · intro t ht
      simp only [List.map_append, List.mem_append, List.map_cons, List.map_nil,
        List.mem_singleton, not_or]
      refine ⟨hdis t (List.mem_cons_of_mem _ ht), ?_⟩
      intro he
      exact hnd.1 (he ▸ List.mem_map_of_mem FcwWorker.KalmanBoxTracker.id ht)

/-- A tracker appears as a value of the dict comprehension over the
filtered tracker list exactly when it is in the list and satisfies the
filter, provided tracker ids are pairwise distinct. -/
theorem mem_dictOfFiltered (p : FcwWorker.KalmanBoxTracker → Bool)
    (l : List FcwWorker.KalmanBoxTracker) (t : FcwWorker.KalmanBoxTracker)
    (h : (l.map FcwWorker.KalmanBoxTracker.id).Nodup) :
    (∃ k, (k, t) ∈ FcwWorker.dictOfFiltered p l) ↔ (t ∈ l ∧ p t = true) := by
  have hsub : ((l.filter p).map FcwWorker.KalmanBoxTracker.id).Nodup :=
    h.sublist ((@List.filter_sublist _ p l).map FcwWorker.KalmanBoxTracker.id)
  rw [FcwWorker.dictOfFiltered, foldl_dictInsert_eq_append _ [] hsub (by simp),
    List.nil_append]
  constructor
  · rintro ⟨k, hk⟩
    rw [List.mem_map] at hk
    obtain ⟨a, ha, hae⟩ := hk
    have hat : a = t := congrArg Prod.snd hae
    subst hat
    exact List.mem_filter.mp ha
  · rintro ⟨hl, hp⟩
    exact ⟨t.id, List.mem_map.mpr ⟨t, List.mem_filter.mpr ⟨hl, hp⟩, rfl⟩⟩

/-- C7: in each worker iteration the tracked objects reported downstream —
returned in the result, projected to reference points and fed into the
hazard guard — are exactly the post-update trackers with
`hit_streak > tracker.min_hits` and `time_since_update < 1`; every other
tracker is excluded (stated under distinct tracker ids, which the external
SORT tracker guarantees). -/
theorem process_image_reports_confirmed_visible_tracks
    (ctx : FcwWorker.PipelineCtx) (tracker : FcwWorker.SortState)
    (guard : FcwWorker.GuardState) (image : ℕ) (t : FcwWorker.KalmanBoxTracker)
    (hids : ((ctx.trackerUpdate tracker (ctx.detect image)).trackers.map
        FcwWorker.KalmanBoxTracker.id).Nodup) :
    ((∃ k, (k, t) ∈ (FcwWorker.process_image ctx tracker guard image).tracked_objects) ↔
      (t ∈ (ctx.trackerUpdate tracker (ctx.detect image)).trackers ∧
       t.hit_streak > (ctx.trackerUpdate tracker (ctx.detect image)).min_hits ∧
       t.time_since_update < 1)) ∧
    (FcwWorker.process_image ctx tracker guard image).ref_points
      = ctx.getReferencePoints (FcwWorker.process_image ctx tracker guard image).tracked_objects ∧
    (FcwWorker.process_image ctx tracker guard image).guard
      = ctx.guardUpdate guard (FcwWorker.process_image ctx tracker guard image).ref_points := by
  refine ⟨?_, rfl, rfl⟩
  rw [show (FcwWorker.process_image ctx tracker guard image).tracked_objects
      = FcwWorker.dictOfFiltered
          (FcwWorker.confirmedVisible (ctx.trackerUpdate tracker (ctx.detect image)).min_hits)
          (ctx.trackerUpdate tracker (ctx.detect image)).trackers from rfl]
  rw [mem_dictOfFiltered _ _ t hids]
  simp [FcwWorker.confirmedVisible, Bool.and_eq_true, decide_eq_true_eq, gt_iff_lt]

/-- C7, witness: with the concrete collaborators of `witnessCtx` the
tracked object with id 1 (confirmed and visible) is reported. -/
theorem process_image_reports_confirmed_visible_tracks_witness :
    ((witnessCtx.trackerUpdate ⟨[], 3⟩ (witnessCtx.detect 0)).trackers.map
        FcwWorker.KalmanBoxTracker.id).Nodup ∧
    ((∃ k, (k, (⟨1, 5, 0⟩ : FcwWorker.KalmanBoxTracker)) ∈
        (FcwWorker.process_image witnessCtx ⟨[], 3⟩ ⟨0⟩ 0).tracked_objects) ↔
      ((⟨1, 5, 0⟩ : FcwWorker.KalmanBoxTracker)
          ∈ (witnessCtx.trackerUpdate ⟨[], 3⟩ (witnessCtx.detect 0)).trackers ∧
       (⟨1, 5, 0⟩ : FcwWorker.KalmanBoxTracker).hit_streak
          > (witnessCtx.trackerUpdate ⟨[], 3⟩ (witnessCtx.detect 0)).min_hits ∧
       (⟨1, 5, 0⟩ : FcwWorker.KalmanBoxTracker).time_since_update < 1)) :=
  ⟨by decide,
   (process_image_reports_confirmed_visible_tracks witnessCtx ⟨[], 3⟩ ⟨0⟩ 0
      ⟨1, 5, 0⟩ (by decide)).1⟩

/-- With the stop signal never raised, the drain loop consumes the whole
schedule, bumping the frame counter once per dequeued frame and publishing
exactly the successful results in order. -/
theorem runLoop_no_stop (sched : List (Bool × FcwWorker.IterEvent)) :
    ∀ w : FcwWorker.WorkerState, w.stopEvent = false → (∀ p ∈ sched, p.1 = false) →
    FcwWorker.runLoop w sched
      = (⟨false, w.frameId + dequeuedFrames sched⟩, okResults sched) := by
  induction sched with
  | nil =>
    intro w hw _
    obtain ⟨se, fid⟩ := w
    simp only at hw
    subst hw
    simp [FcwWorker.runLoop, dequeuedFrames, okResults]
  | cons p rest ih =>
    intro w hw hsched
    obtain ⟨b, ev⟩ := p
    have hb : b = false := hsched (b, ev) (List.mem_cons_self _ _)
    subst hb
    have hrest : ∀ q ∈ rest, q.1 = false := fun q hq => hsched q (List.mem_cons_of_mem _ hq)
    obtain ⟨se, fid⟩ := w
    simp only at hw
    subst hw
    cases ev with
    | timeout =>
      have h := ih ⟨false, fid⟩ rfl hrest
      simp only [FcwWorker.runLoop, FcwWorker.runIter, if_neg Bool.false_ne_true] at h ⊢
      simp [h, dequeuedFrames, okResults, List.countP_cons, List.filterMap_cons]
    | frameOk r =>
      have h := ih ⟨false, fid + 1⟩ rfl hrest
      simp only [FcwWorker.runLoop, FcwWorker.runIter, if_neg Bool.false_ne_true] at h ⊢
      simp [h, dequeuedFrames, okResults, List.countP_cons, List.filterMap_cons]
      omega
    | frameRaises =>
      have h := ih ⟨false, fid + 1⟩ rfl hrest
      simp only [FcwWorker.runLoop, FcwWorker.runIter, if_neg Bool.false_ne_true] at h ⊢
      simp [h, dequeuedFrames, okResults, List.countP_cons, List.filterMap_cons]
      omega

/-- C8: as long as the stop signal is not set, the drain loop processes
every scheduled queue delivery: a frame whose processing or publishing
raises is counted (its iteration ran and its exception was caught inside
the loop body), publishes no result, and the loop continues — the
published results are exactly those of the successfully processed frames
in order, and the loop never terminates on an exception. -/
theorem run_loop_survives_iteration_exception
    (w : FcwWorker.WorkerState) (sched : List (Bool × FcwWorker.IterEvent))
    (hw : w.stopEvent = false) (hsched : ∀ p ∈ sched, p.1 = false) :
    FcwWorker.runLoop w sched
      = (⟨false, w.frameId + dequeuedFrames sched⟩, okResults sched) :=
  runLoop_no_stop sched w hw hsched

/-- C8, witness: a schedule with a raising frame between two successful
frames and a timeout — all three frames are consumed and exactly the two
successful results are published. -/
theorem run_loop_survives_iteration_exception_witness :
    (FcwWorker.WorkerState.mk false 0).stopEvent = false ∧
    (∀ p ∈ [(false, FcwWorker.IterEvent.frameOk 5), (false, FcwWorker.IterEvent.frameRaises),
            (false, FcwWorker.IterEvent.timeout), (false, FcwWorker.IterEvent.frameOk 7)],
      p.1 = false) ∧
    FcwWorker.runLoop ⟨false, 0⟩
        [(false, FcwWorker.IterEvent.frameOk 5), (false, FcwWorker.IterEvent.frameRaises),
         (false, FcwWorker.IterEvent.timeout), (false, FcwWorker.IterEvent.frameOk 7)]
      = (⟨false, 3⟩, [5, 7]) :=
  ⟨rfl, by decide,
   (run_loop_survives_iteration_exception ⟨false, 0⟩
      [(false, FcwWorker.IterEvent.frameOk 5), (false, FcwWorker.IterEvent.frameRaises),
       (false, FcwWorker.IterEvent.timeout), (false, FcwWorker.IterEvent.frameOk 7)]
      rfl (by decide)).trans (by decide)⟩
